import Mathlib

/-!
# User-management commands of the CLI (`pkg/cli/user.go`)

A shallow embedding of the four command handlers `runGetUser`, `runLsUsers`,
`runRmUser` and `runSetUser`.  The handlers are effectful Go functions: they
call collaborators (usage printer, password prompt, line scanner over standard
input, password hasher, SQL client).  Each handler is embedded as a pure
function from an environment `Env`, which fixes how every collaborator answers,
to a `Run`: the ordered list of collaborator calls that were made together
with the way the handler ended (a returned `error`, or a Go panic).
-/

namespace Cli

/-! ## Go values -/

/-- A Go byte slice `[]byte`. -/
abbrev Bytes := List UInt8

/-- A Go `string`: an immutable sequence of bytes with no encoding constraint. -/
abbrev GoString := List UInt8

/-- A Go string literal whose text is ASCII, as a byte sequence. -/
def lit (s : String) : GoString := s.data.map (fun c => UInt8.ofNat c.toNat)

/-- A non-nil Go `error` value, identified by its message. -/
structure Err where
  msg : String
  deriving DecidableEq

/-- The Go interface type `error`; `none` is `nil`. -/
abbrev GoError := Option Err

/-- The function `errors.New` of the Go standard library. -/
def errors.New (text : String) : GoError := some ⟨text⟩

/-- The value handed to the Go builtin `panic`. -/
inductive PanicValue
  | error (err : Err)
  | string (s : String)
  deriving DecidableEq

/-- A `cobra.Command`, reduced to the descriptive fields set in `user.go`. -/
structure Command where
  Use : String
  Short : String
  deriving DecidableEq

def getUserCmd : Command := ⟨"get [options] <username>", "fetches and displays a user"⟩
def lsUsersCmd : Command := ⟨"ls [options]", "list all users"⟩
def rmUserCmd : Command := ⟨"rm [options] <username>", "remove a user"⟩
def setUserCmd : Command := ⟨"set [options] <username>", "create or update a user"⟩

/-- A `driver.Value` bound to a placeholder of a statement: the handlers bind
Go strings (user names) and byte slices (password hashes). -/
inductive Value
  | string (s : GoString)
  | bytes (b : Bytes)
  deriving DecidableEq

/-- What `makeQuery` is given: the statement text and the values bound to its
placeholders. -/
structure Query where
  query : String
  parameters : List Value
  deriving DecidableEq

/-- Modelled from the spec: `makeQuery` is defined in another file of the
package.  The spec describes the backend call as
`Connection.Execute(statementTemplate, params...)`, so the value built by
`makeQuery(query, parameters...)` is represented by exactly its two inputs. -/
def makeQuery (query : String) (parameters : List Value) : Query := ⟨query, parameters⟩

/-- An open SQL connection (`*sqlConn`), identified by a number. -/
structure SqlConn where
  id : Nat
  deriving DecidableEq

/-! ## Standard input and `bufio.Scanner` -/

/-- The content of `os.Stdin` as a `bufio.Scanner` with the default split
function and the default buffer delivers it: the successive tokens (lines
without their terminator) and the error, if any, that stops the scanner after
them: a read error, or `bufio.ErrTooLong` (`none` for a clean end of input).
`Stdin.ofBytes` computes both from the bytes of the stream. -/
structure Stdin where
  lines : List Bytes
  err : GoError

/-- State of a `bufio.Scanner`: tokens still to deliver, the current token, the
error that will end the stream, and the error recorded so far. -/
structure Scanner where
  rest : List Bytes
  tok : Bytes
  readErr : GoError
  err : GoError

/-- The scanner created by `bufio.NewScanner(os.Stdin)`. -/
def NewScanner (r : Stdin) : Scanner := ⟨r.lines, [], r.err, none⟩

/-- One call of `scanner.Scan()`: `true` with the next token made current, or `false`
at the end of the stream, recording the read error. -/
def Scanner.Scan (s : Scanner) : Bool × Scanner :=
  match s.rest with
  | t :: ts => (true, { s with rest := ts, tok := t })
  | [] => (false, { s with tok := [], err := s.readErr })

/-- The accessor `scanner.Bytes()`: the token of the last successful `Scan`. -/
def Scanner.Bytes (s : Scanner) : Bytes := s.tok

/-- The accessor `scanner.Err()`: the first error other than end of input. -/
def Scanner.Err (s : Scanner) : GoError := s.err

/-- The helper `dropCR` of `bufio`: drops one trailing carriage return. -/
def dropCR (data : Bytes) : Bytes :=
  if data.getLast? = some 13 then data.dropLast else data

/-- The constant `bufio.MaxScanTokenSize`: the largest size the buffer of a
scanner made by `bufio.NewScanner` grows to. -/
def MaxScanTokenSize : Nat := 64 * 1024

/-- The error `bufio.ErrTooLong`. -/
def ErrTooLong : Err := ⟨"bufio.Scanner: token too long"⟩

/-- What a default `bufio.Scanner` (split function `bufio.ScanLines`, buffer of
at most `MaxScanTokenSize` bytes) makes of a byte stream whose reader ends with
`readErr` (`none` for a plain end of input).  Every line ended by a newline is
a token, and so is the unterminated rest if it is not empty, each without one
trailing carriage return.  `cur` holds the bytes of the line being read, last
byte first; they are the bytes held in the buffer.  As soon as the buffer holds
`MaxScanTokenSize` bytes with no newline among them, the scanner stops with
`ErrTooLong` and the line is not delivered. -/
def scanLines (readErr : GoError) (cur : Bytes) : Bytes → Stdin
  | [] => ⟨if cur = [] then [] else [dropCR cur.reverse], readErr⟩
  | c :: cs =>
    if c = 10 then
      ⟨dropCR cur.reverse :: (scanLines readErr [] cs).lines, (scanLines readErr [] cs).err⟩
    else if MaxScanTokenSize ≤ cur.length + 1 then
      ⟨[], some ErrTooLong⟩
    else
      scanLines readErr (c :: cur) cs

/-- Standard input holding exactly the bytes `data`, followed by a plain end of
input, as the scanner of line 132 delivers it. -/
def Stdin.ofBytes (data : Bytes) : Stdin := scanLines none [] data

/-! ## Environment, events and runs -/

/-- Everything outside `user.go` that a handler depends on: the package
variables `password` and `cliCtx.prettyFmt`, the content of standard input and
the answer of every collaborator. -/
structure Env where
  password : GoString
  prettyFmt : Bool
  stdin : Stdin
  usageAndError : Command → GoError
  PromptForPasswordAndHash : Except Err Bytes
  HashPassword : Bytes → Except Err Bytes
  makeSQLClient : Except Err SqlConn
  runQueryAndFormatResults : SqlConn → Query → Bool → GoError

/-- A call made by a handler to a collaborator. -/
inductive Event
  | usageAndError (cmd : Command)
  | PromptForPasswordAndHash
  | Scan
  | HashPassword (b : Bytes)
  | makeSQLClient
  | runQueryAndFormatResults (conn : SqlConn) (q : Query) (prettyFmt : Bool)
  | Close (conn : SqlConn)
  deriving DecidableEq

/-- How a handler ends: it returns an `error` (possibly `nil`), or it panics. -/
inductive Outcome
  | returned (err : GoError)
  | panicked (v : PanicValue)
  deriving DecidableEq

/-- The observable behaviour of one handler invocation. -/
structure Run where
  trace : List Event
  outcome : Outcome
  deriving DecidableEq

/-! ## The handlers -/

/-- Embedding of `runGetUser` (lines 42-53). -/
def runGetUser (env : Env) (cmd : Command) (args : List GoString) : Run :=
  if h : args.length ≠ 1 then
    ⟨[.usageAndError cmd], .returned (env.usageAndError cmd)⟩
  else
    match env.makeSQLClient with
    | .error err => ⟨[.makeSQLClient], .returned (some err)⟩
    | .ok conn =>
      let q := makeQuery "SELECT * FROM system.users WHERE username=$1"
        [.string (args.get ⟨0, by omega⟩)]
      ⟨[.makeSQLClient, .runQueryAndFormatResults conn q env.prettyFmt, .Close conn],
        .returned (env.runQueryAndFormatResults conn q env.prettyFmt)⟩

/-- Embedding of `runLsUsers` (lines 66-77). -/
def runLsUsers (env : Env) (cmd : Command) (args : List GoString) : Run :=
  if args.length > 0 then
    ⟨[.usageAndError cmd], .returned (env.usageAndError cmd)⟩
  else
    match env.makeSQLClient with
    | .error err => ⟨[.makeSQLClient], .panicked (.error err)⟩
    | .ok conn =>
      let q := makeQuery "SELECT username FROM system.users" []
      ⟨[.makeSQLClient, .runQueryAndFormatResults conn q env.prettyFmt, .Close conn],
        .returned (env.runQueryAndFormatResults conn q env.prettyFmt)⟩

/-- Embedding of `runRmUser` (lines 90-101). -/
def runRmUser (env : Env) (cmd : Command) (args : List GoString) : Run :=
  if h : args.length ≠ 1 then
    ⟨[.usageAndError cmd], .returned (env.usageAndError cmd)⟩
  else
    match env.makeSQLClient with
    | .error err => ⟨[.makeSQLClient], .returned (some err)⟩
    | .ok conn =>
      let q := makeQuery "DELETE FROM system.users WHERE username=$1"
        [.string (args.get ⟨0, by omega⟩)]
      ⟨[.makeSQLClient, .runQueryAndFormatResults conn q env.prettyFmt, .Close conn],
        .returned (env.runQueryAndFormatResults conn q env.prettyFmt)⟩

/-- Lines 161-168 of `runSetUser`, reached from every branch of the `switch`
that leaves it normally: `before` is the trace so far, `username` is `args[0]`
and `hashed` the hash obtained in the `switch`. -/
def runSetUser.insert (env : Env) (before : List Event) (username : GoString)
    (hashed : Bytes) : Run :=
  match env.makeSQLClient with
  | .error err => ⟨before ++ [.makeSQLClient], .returned (some err)⟩
  | .ok conn =>
    let q := makeQuery "INSERT INTO system.users VALUES ($1, $2)"
      [.string username, .bytes hashed]
    ⟨before ++ [.makeSQLClient, .runQueryAndFormatResults conn q env.prettyFmt, .Close conn],
      .returned (env.runQueryAndFormatResults conn q env.prettyFmt)⟩

/-- Embedding of `runSetUser` (lines 119-169). -/
def runSetUser (env : Env) (cmd : Command) (args : List GoString) : Run :=
  if h : args.length ≠ 1 then
    ⟨[.usageAndError cmd], .returned (env.usageAndError cmd)⟩
  else
    if env.password = lit "" then
      match env.PromptForPasswordAndHash with
      | .error err => ⟨[.PromptForPasswordAndHash], .returned (some err)⟩
      | .ok hashed =>
        runSetUser.insert env [.PromptForPasswordAndHash] (args.get ⟨0, by omega⟩) hashed
    else if env.password = lit "-" then
      match (NewScanner env.stdin).Scan with
      | (true, scanner) =>
        let b := scanner.Bytes
        if b.length > 0 then
          match env.HashPassword b with
          | .error err => ⟨[.Scan, .HashPassword b], .returned (some err)⟩
          | .ok hashed =>
            match scanner.Scan with
            | (true, _) =>
              ⟨[.Scan, .HashPassword b, .Scan],
                .returned (errors.New "multiline passwords are not permitted")⟩
            | (false, scanner) =>
              match scanner.Err with
              | some err => ⟨[.Scan, .HashPassword b, .Scan], .returned (some err)⟩
              | none =>
                runSetUser.insert env [.Scan, .HashPassword b, .Scan]
                  (args.get ⟨0, by omega⟩) hashed
        else
          ⟨[.Scan], .panicked (.string "empty passwords are not permitted")⟩
      | (false, scanner) =>
        match scanner.Err with
        | some err => ⟨[.Scan], .returned (some err)⟩
        | none => ⟨[.Scan], .panicked (.string "empty passwords are not permitted")⟩
    else
      match env.HashPassword env.password with
      | .error err => ⟨[.HashPassword env.password], .returned (some err)⟩
      | .ok hashed =>
        runSetUser.insert env [.HashPassword env.password] (args.get ⟨0, by omega⟩) hashed

/-- The four user commands, in the order of `userCmds`. -/
inductive Handler
  | get
  | ls
  | rm
  | set
  deriving DecidableEq

/-- The function each command runs (its `RunE`, before error decoration). -/
def Handler.run : Handler → Env → Command → List GoString → Run
  | .get => runGetUser
  | .ls => runLsUsers
  | .rm => runRmUser
  | .set => runSetUser

/-- The number of positional arguments the spec gives for each command:
one user name for `get`, `rm` and `set`, none for `ls`. -/
def Handler.arity : Handler → Nat
  | .get => 1
  | .ls => 0
  | .rm => 1
  | .set => 1

/-! ## Observations on traces -/

/-- Number of calls of `makeSQLClient` in a trace. -/
def connects (tr : List Event) : Nat :=
  (tr.filter fun e => match e with
    | .makeSQLClient => true
    | _ => false).length

/-- Number of calls of `security.PromptForPasswordAndHash` in a trace. -/
def prompts (tr : List Event) : Nat :=
  (tr.filter fun e => match e with
    | .PromptForPasswordAndHash => true
    | _ => false).length

/-- Number of calls of `scanner.Scan` on standard input in a trace. -/
def scans (tr : List Event) : Nat :=
  (tr.filter fun e => match e with
    | .Scan => true
    | _ => false).length

/-- The arguments of the calls of `security.HashPassword`, in order. -/
def hashCalls (tr : List Event) : List Bytes :=
  tr.filterMap fun e => match e with
    | .HashPassword b => some b
    | _ => none

/-- The statements handed to `runQueryAndFormatResults`, in order. -/
def queries (tr : List Event) : List Query :=
  tr.filterMap fun e => match e with
    | .runQueryAndFormatResults _ q _ => some q
    | _ => none

/-- The connections on which `Close` was called, in order. -/
def closes (tr : List Event) : List SqlConn :=
  tr.filterMap fun e => match e with
    | .Close conn => some conn
    | _ => none

/-! ## Shapes of runs -/

/-- The three shapes a run can have with respect to the connection: it never
connects; the connection fails right after `before`; or the connection
succeeds and the run ends with one statement followed by `Close`, returning
the result of the statement. -/
def ConnShape (env : Env) (r : Run) : Prop :=
  (connects r.trace = 0 ∧ queries r.trace = [] ∧ closes r.trace = [])
  ∨ (∃ before e, env.makeSQLClient = .error e ∧ r.trace = before ++ [.makeSQLClient]
      ∧ connects before = 0 ∧ queries before = [] ∧ closes before = [])
  ∨ (∃ before conn q, env.makeSQLClient = .ok conn
      ∧ r = ⟨before ++ [.makeSQLClient, .runQueryAndFormatResults conn q env.prettyFmt,
                .Close conn],
              .returned (env.runQueryAndFormatResults conn q env.prettyFmt)⟩
      ∧ connects before = 0 ∧ queries before = [] ∧ closes before = [])

/-- The statement text written in each handler. -/
def Handler.statement : Handler → String
  | .get => "SELECT * FROM system.users WHERE username=$1"
  | .ls => "SELECT username FROM system.users"
  | .rm => "DELETE FROM system.users WHERE username=$1"
  | .set => "INSERT INTO system.users VALUES ($1, $2)"

/-! ## Concrete environments -/

/-- A sample environment: every collaborator succeeds; the hasher reverses its
input and the flag `--password` is unset. -/
def sampleEnv : Env where
  password := lit ""
  prettyFmt := true
  stdin := Stdin.ofBytes []
  usageAndError := fun _ => errors.New "invalid arguments"
  PromptForPasswordAndHash := .ok (lit "prompted-hash")
  HashPassword := fun b => .ok b.reverse
  makeSQLClient := .ok ⟨1⟩
  runQueryAndFormatResults := fun _ _ _ => none

/-- A sample environment whose hasher always fails, with the given flag value
and piped bytes. -/
def failingHashEnv (password : GoString) (piped : Bytes) : Env where
  password := password
  prettyFmt := true
  stdin := Stdin.ofBytes piped
  usageAndError := fun _ => errors.New "invalid arguments"
  PromptForPasswordAndHash := .error ⟨"hash failure"⟩
  HashPassword := fun _ => .error ⟨"hash failure"⟩
  makeSQLClient := .ok ⟨1⟩
  runQueryAndFormatResults := fun _ _ _ => none

/-- The sample environment with the flag set to the sentinel `-` and the given
bytes piped to standard input. -/
def pipedEnv (piped : Bytes) : Env where
  password := lit "-"
  prettyFmt := true
  stdin := Stdin.ofBytes piped
  usageAndError := fun _ => errors.New "invalid arguments"
  PromptForPasswordAndHash := .ok (lit "prompted-hash")
  HashPassword := fun b => .ok b.reverse
  makeSQLClient := .ok ⟨1⟩
  runQueryAndFormatResults := fun _ _ _ => none

/-- A line of `MaxScanTokenSize` copies of the byte `c`, without terminator. -/
def longLine (c : UInt8) : Bytes := List.replicate MaxScanTokenSize c

/-! ## Basic facts -/

theorem lit_empty : lit "" = [] := rfl

theorem lit_dash : lit "-" = [45] := rfl

/-- What `runSetUser` does when the flag is the sentinel and the first `Scan`
fails at a clean end of input. -/
theorem runSetUser_piped_absent (env : Env) (cmd : Command) (u : GoString)
    (hp : env.password = lit "-") (hl : env.stdin.lines = []) (he : env.stdin.err = none) :
    runSetUser env cmd [u]
      = ⟨[.Scan], .panicked (.string "empty passwords are not permitted")⟩ := by
  simp [runSetUser, hp, lit_dash, lit_empty, NewScanner, Scanner.Scan, Scanner.Err, hl, he]

/-- What `runSetUser` does when the flag is the sentinel and the first token is
empty. -/
theorem runSetUser_piped_blank (env : Env) (cmd : Command) (u : GoString) (rest : List Bytes)
    (hp : env.password = lit "-") (hl : env.stdin.lines = [] :: rest) :
    runSetUser env cmd [u]
      = ⟨[.Scan], .panicked (.string "empty passwords are not permitted")⟩ := by
  simp [runSetUser, hp, lit_dash, lit_empty, NewScanner, Scanner.Scan, Scanner.Bytes, hl]

/-- A line that fits the buffer and is ended by a newline is delivered as a
token (after the pending bytes `cur`, without one trailing carriage return);
scanning goes on with the rest. -/
theorem scanLines_line (readErr : GoError) (L : Bytes) (hL : (10 : UInt8) ∉ L)
    (cur rest : Bytes) (hfit : cur.length + L.length < MaxScanTokenSize) :
    scanLines readErr cur (L ++ 10 :: rest)
      = ⟨dropCR (cur.reverse ++ L) :: (scanLines readErr [] rest).lines,
          (scanLines readErr [] rest).err⟩ := by
  induction L generalizing cur with
  | nil => simp [scanLines]
  | cons c cs ih =>
    have hc : c ≠ 10 := fun h => hL (by simp [h])
    have hcs : (10 : UInt8) ∉ cs := fun h => hL (by simp [h])
    have hlen : ¬ MaxScanTokenSize ≤ cur.length + 1 := by
      simp only [List.length_cons] at hfit
      omega
    have hfit2 : (c :: cur).length + cs.length < MaxScanTokenSize := by
      simp only [List.length_cons] at hfit ⊢
      omega
    simp [scanLines, hc, hlen, ih hcs (c :: cur) hfit2]

/-- An unterminated last line that fits the buffer is delivered as a token,
unless it is empty; the scanner then ends with the error of the reader. -/
theorem scanLines_last (readErr : GoError) (L : Bytes) (hL : (10 : UInt8) ∉ L)
    (cur : Bytes) (hfit : cur.length + L.length < MaxScanTokenSize) :
    scanLines readErr cur L
      = ⟨if cur.reverse ++ L = [] then [] else [dropCR (cur.reverse ++ L)], readErr⟩ := by
  induction L generalizing cur with
  | nil => simp [scanLines]
  | cons c cs ih =>
    have hc : c ≠ 10 := fun h => hL (by simp [h])
    have hcs : (10 : UInt8) ∉ cs := fun h => hL (by simp [h])
    have hlen : ¬ MaxScanTokenSize ≤ cur.length + 1 := by
      simp only [List.length_cons] at hfit
      omega
    have hfit2 : (c :: cur).length + cs.length < MaxScanTokenSize := by
      simp only [List.length_cons] at hfit ⊢
      omega
    simp [scanLines, hc, hlen, ih hcs (c :: cur) hfit2]

/-- A line that fills the buffer before its newline is not delivered: the
scanner stops with `ErrTooLong`, whatever follows. -/
theorem scanLines_tooLong (readErr : GoError) (L : Bytes) (hL : (10 : UInt8) ∉ L)
    (cur rest : Bytes) (hcur : cur.length < MaxScanTokenSize)
    (hlong : MaxScanTokenSize ≤ cur.length + L.length) :
    scanLines readErr cur (L ++ rest) = ⟨[], some ErrTooLong⟩ := by
  induction L generalizing cur with
  | nil =>
    simp only [List.length_nil] at hlong
    omega
  | cons c cs ih =>
    have hc : c ≠ 10 := fun h => hL (by simp [h])
    have hcs : (10 : UInt8) ∉ cs := fun h => hL (by simp [h])
    by_cases hlen : MaxScanTokenSize ≤ cur.length + 1
    · simp [scanLines, hc, hlen]
    · have hcur2 : (c :: cur).length < MaxScanTokenSize := by
        simp only [List.length_cons]
        omega
      have hlong2 : MaxScanTokenSize ≤ (c :: cur).length + cs.length := by
        simp only [List.length_cons] at hlong ⊢
        omega
      simp [scanLines, hc, hlen, ih hcs (c :: cur) hcur2 hlong2]

/-- When something is left to read and the next line fits the buffer, the
scanner delivers at least one token. -/
theorem scanLines_head (readErr : GoError) (d cur : Bytes)
    (hfit : cur.length + (d.takeWhile (fun c => c ≠ 10)).length < MaxScanTokenSize)
    (hne : cur ≠ [] ∨ d ≠ []) :
    ∃ t ts, (scanLines readErr cur d).lines = t :: ts := by
  induction d generalizing cur with
  | nil =>
    rcases hne with h | h
    · exact ⟨dropCR cur.reverse, [], by simp [scanLines, h]⟩
    · exact absurd rfl h
  | cons c cs ih =>
    by_cases hc : c = 10
    · exact ⟨dropCR cur.reverse, (scanLines readErr [] cs).lines, by simp [scanLines, hc]⟩
    · have htw : ((c :: cs).takeWhile (fun c => c ≠ 10)).length
          = (cs.takeWhile (fun c => c ≠ 10)).length + 1 := by
        simp [List.takeWhile_cons, hc]
      have hlen : ¬ MaxScanTokenSize ≤ cur.length + 1 := by omega
      have hfit2 : (c :: cur).length + (cs.takeWhile (fun c => c ≠ 10)).length
          < MaxScanTokenSize := by
        simp only [List.length_cons]
        omega
      obtain ⟨t, ts, h⟩ := ih (c :: cur) hfit2 (Or.inl (by simp))
      exact ⟨t, ts, by simp [scanLines, hc, hlen, h]⟩

/-- A piped input made of one line `raw` that fits the buffer, with or without
the closing newline, is delivered as the single token `dropCR raw`, followed by
a clean end of input. -/
theorem ofBytes_single_line (raw : Bytes) (hnl : (10 : UInt8) ∉ raw)
    (hfit : raw.length < MaxScanTokenSize) (hne : dropCR raw ≠ []) :
    Stdin.ofBytes raw = ⟨[dropCR raw], none⟩
      ∧ Stdin.ofBytes (raw ++ [10]) = ⟨[dropCR raw], none⟩ := by
  have hraw : raw ≠ [] := by
    intro h
    apply hne
    simp [h, dropCR]
  constructor
  · rw [Stdin.ofBytes, scanLines_last none raw hnl [] (by simpa using hfit)]
    simp [hraw]
  · rw [Stdin.ofBytes, scanLines_line none raw hnl [] [] (by simpa using hfit)]
    simp [scanLines]

/-- What `runSetUser` does when the flag is the sentinel and the first `Scan`
fails with an error: the error is returned. -/
theorem runSetUser_piped_scan_error (env : Env) (cmd : Command) (u : GoString) (e : Err)
    (hp : env.password = lit "-") (hl : env.stdin.lines = []) (he : env.stdin.err = some e) :
    runSetUser env cmd [u] = ⟨[.Scan], .returned (some e)⟩ := by
  simp [runSetUser, hp, lit_dash, lit_empty, NewScanner, Scanner.Scan, Scanner.Err, hl, he]

/-- What `runSetUser` does when the flag is the sentinel, the first token is
hashed and the second `Scan` fails with an error: the error is returned. -/
theorem runSetUser_piped_second_scan_error (env : Env) (cmd : Command) (u : GoString)
    (L hashed : Bytes) (e : Err)
    (hp : env.password = lit "-") (hl : env.stdin.lines = [L]) (he : env.stdin.err = some e)
    (hL : L ≠ []) (hh : env.HashPassword L = .ok hashed) :
    runSetUser env cmd [u] = ⟨[.Scan, .HashPassword L, .Scan], .returned (some e)⟩ := by
  have hpos : 0 < L.length := List.length_pos.mpr hL
  simp [runSetUser, hp, lit_dash, lit_empty, NewScanner, Scanner.Scan, Scanner.Bytes,
    Scanner.Err, hl, he, hpos, hh]

/-- Every way `runSetUser` can run on one argument, by value of the flag: the
trace before the connection is attempted, and whether lines 161-168 are
reached. -/
theorem runSetUser_cases (env : Env) (cmd : Command) (u : GoString) :
    (env.password = lit "" ∧
      ((∃ e, env.PromptForPasswordAndHash = .error e ∧
          runSetUser env cmd [u] = ⟨[.PromptForPasswordAndHash], .returned (some e)⟩)
        ∨ (∃ hashed, env.PromptForPasswordAndHash = .ok hashed ∧
          runSetUser env cmd [u]
            = runSetUser.insert env [.PromptForPasswordAndHash] u hashed)))
    ∨ (env.password = lit "-" ∧
      ((∃ o, runSetUser env cmd [u] = ⟨[.Scan], o⟩)
        ∨ (∃ b e, env.stdin.lines.head? = some b ∧ env.HashPassword b = .error e ∧
          runSetUser env cmd [u] = ⟨[.Scan, .HashPassword b], .returned (some e)⟩)
        ∨ (∃ b hashed o, env.stdin.lines.head? = some b ∧ env.HashPassword b = .ok hashed ∧
          runSetUser env cmd [u] = ⟨[.Scan, .HashPassword b, .Scan], o⟩)
        ∨ (∃ b hashed, env.stdin.lines.head? = some b ∧ env.HashPassword b = .ok hashed ∧
          runSetUser env cmd [u]
            = runSetUser.insert env [.Scan, .HashPassword b, .Scan] u hashed)))
    ∨ (env.password ≠ lit "" ∧ env.password ≠ lit "-" ∧
      ((∃ e, env.HashPassword env.password = .error e ∧
          runSetUser env cmd [u] = ⟨[.HashPassword env.password], .returned (some e)⟩)
        ∨ (∃ hashed, env.HashPassword env.password = .ok hashed ∧
          runSetUser env cmd [u]
            = runSetUser.insert env [.HashPassword env.password] u hashed))) := by
  by_cases h1 : env.password = lit ""
  · left
    refine ⟨h1, ?_⟩
    cases hp : env.PromptForPasswordAndHash with
    | error e => left; exact ⟨e, rfl, by simp [runSetUser, h1, hp]⟩
    | ok hashed => right; exact ⟨hashed, rfl, by simp [runSetUser, h1, hp]⟩
  · by_cases h2 : env.password = lit "-"
    · right; left
      refine ⟨h2, ?_⟩
      cases hl : env.stdin.lines with
      | nil =>
        left
        cases he : env.stdin.err with
        | none =>
          exact ⟨.panicked (.string "empty passwords are not permitted"), by
            simp [runSetUser, h2, lit_dash, lit_empty, NewScanner, Scanner.Scan,
              Scanner.Err, hl, he]⟩
        | some e =>
          exact ⟨.returned (some e), by simp [runSetUser, h2, lit_dash, lit_empty, NewScanner,
            Scanner.Scan, Scanner.Err, hl, he]⟩
      | cons b rest =>
        by_cases hb : 0 < b.length
        · right
          cases hh : env.HashPassword b with
          | error e =>
            left
            exact ⟨b, e, rfl, hh, by simp [runSetUser, h2, lit_dash, lit_empty, NewScanner,
              Scanner.Scan, Scanner.Bytes, hl, hb, hh]⟩
          | ok hashed =>
            right
            cases rest with
            | cons m ms =>
              left
              exact ⟨b, hashed,
                .returned (errors.New "multiline passwords are not permitted"), rfl, hh, by
                  simp [runSetUser, h2, lit_dash, lit_empty, NewScanner, Scanner.Scan,
                    Scanner.Bytes, hl, hb, hh]⟩
            | nil =>
              cases he : env.stdin.err with
              | some e =>
                left
                exact ⟨b, hashed, .returned (some e), rfl, hh, by
                  simp [runSetUser, h2, lit_dash, lit_empty, NewScanner, Scanner.Scan,
                    Scanner.Bytes, Scanner.Err, hl, hb, hh, he]⟩
              | none =>
                right
                exact ⟨b, hashed, rfl, hh, by
                  simp [runSetUser, h2, lit_dash, lit_empty, NewScanner, Scanner.Scan,
                    Scanner.Bytes, Scanner.Err, hl, hb, hh, he]⟩
        · left
          exact ⟨.panicked (.string "empty passwords are not permitted"), by
            simp [runSetUser, h2, lit_dash, lit_empty, NewScanner, Scanner.Scan,
              Scanner.Bytes, hl, hb]⟩
    · right; right
      refine ⟨h1, h2, ?_⟩
      cases hh : env.HashPassword env.password with
      | error e => left; exact ⟨e, rfl, by simp [runSetUser, h1, h2, hh]⟩
      | ok hashed => right; exact ⟨hashed, rfl, by simp [runSetUser, h1, h2, hh]⟩

/-- Lines 161-168 when the connection fails: the error is returned. -/
theorem insert_connect_error (env : Env) (before : List Event) (u : GoString) (hashed : Bytes)
    (e : Err) (hc : env.makeSQLClient = .error e) :
    runSetUser.insert env before u hashed
      = ⟨before ++ [.makeSQLClient], .returned (some e)⟩ := by
  simp [runSetUser.insert, hc]

/-- Lines 161-168 when the connection succeeds: one statement, then `Close`. -/
theorem insert_connect_ok (env : Env) (before : List Event) (u : GoString) (hashed : Bytes)
    (conn : SqlConn) (hc : env.makeSQLClient = .ok conn) :
    runSetUser.insert env before u hashed
      = ⟨before ++ [.makeSQLClient,
            .runQueryAndFormatResults conn
              ⟨"INSERT INTO system.users VALUES ($1, $2)", [.string u, .bytes hashed]⟩
              env.prettyFmt,
            .Close conn],
          .returned (env.runQueryAndFormatResults conn
            ⟨"INSERT INTO system.users VALUES ($1, $2)", [.string u, .bytes hashed]⟩
            env.prettyFmt)⟩ := by
  simp [runSetUser.insert, makeQuery, hc]

/-- Lines 161-168 call neither the prompt, nor the scanner, nor the hasher. -/
theorem insert_sources (env : Env) (before : List Event) (u : GoString) (hashed : Bytes) :
    prompts (runSetUser.insert env before u hashed).trace = prompts before
      ∧ scans (runSetUser.insert env before u hashed).trace = scans before
      ∧ hashCalls (runSetUser.insert env before u hashed).trace = hashCalls before := by
  cases hc : env.makeSQLClient <;>
    simp [runSetUser.insert, hc, prompts, scans, hashCalls, List.filter_append,
      List.filterMap_append]

/-- Lines 161-168 have one of the connection shapes when nothing before them
touched the backend. -/
theorem insert_connShape (env : Env) (before : List Event) (u : GoString) (hashed : Bytes)
    (h1 : connects before = 0) (h2 : queries before = []) (h3 : closes before = []) :
    ConnShape env (runSetUser.insert env before u hashed) := by
  cases hc : env.makeSQLClient with
  | error e =>
    right; left
    exact ⟨before, e, hc, by rw [insert_connect_error env before u hashed e hc], h1, h2, h3⟩
  | ok conn =>
    right; right
    exact ⟨before, conn, _, hc, insert_connect_ok env before u hashed conn hc, h1, h2, h3⟩

/-- Every run of every handler has one of the connection shapes. -/
theorem run_connShape (h : Handler) (env : Env) (cmd : Command) (args : List GoString) :
    ConnShape env (h.run env cmd args) := by
  have usage : ConnShape env ⟨[.usageAndError cmd], .returned (env.usageAndError cmd)⟩ :=
    Or.inl (by simp [connects, queries, closes])
  cases h with
  | get =>
    by_cases hlen : args.length ≠ 1
    · simpa [Handler.run, runGetUser, hlen] using usage
    · obtain ⟨u, rfl⟩ : ∃ u, args = [u] := List.length_eq_one.mp (not_not.mp hlen)
      cases hc : env.makeSQLClient with
      | error e =>
        right; left
        exact ⟨[], e, hc, by simp [Handler.run, runGetUser, hc],
          by simp [connects], by simp [queries], by simp [closes]⟩
      | ok conn =>
        right; right
        exact ⟨[], conn, ⟨"SELECT * FROM system.users WHERE username=$1", [.string u]⟩, hc,
          by simp [Handler.run, runGetUser, hc, makeQuery],
          by simp [connects], by simp [queries], by simp [closes]⟩
  | ls =>
    by_cases hlen : args.length > 0
    · simpa [Handler.run, runLsUsers, hlen] using usage
    · cases hc : env.makeSQLClient with
      | error e =>
        right; left
        exact ⟨[], e, hc, by simp [Handler.run, runLsUsers, hlen, hc],
          by simp [connects], by simp [queries], by simp [closes]⟩
      | ok conn =>
        right; right
        exact ⟨[], conn, ⟨"SELECT username FROM system.users", []⟩, hc,
          by simp [Handler.run, runLsUsers, hlen, hc, makeQuery],
          by simp [connects], by simp [queries], by simp [closes]⟩
  | rm =>
    by_cases hlen : args.length ≠ 1
    · simpa [Handler.run, runRmUser, hlen] using usage
    · obtain ⟨u, rfl⟩ : ∃ u, args = [u] := List.length_eq_one.mp (not_not.mp hlen)
      cases hc : env.makeSQLClient with
      | error e =>
        right; left
        exact ⟨[], e, hc, by simp [Handler.run, runRmUser, hc],
          by simp [connects], by simp [queries], by simp [closes]⟩
      | ok conn =>
        right; right
        exact ⟨[], conn, ⟨"DELETE FROM system.users WHERE username=$1", [.string u]⟩, hc,
          by simp [Handler.run, runRmUser, hc, makeQuery],
          by simp [connects], by simp [queries], by simp [closes]⟩
  | set =>
    by_cases hlen : args.length ≠ 1
    · simpa [Handler.run, runSetUser, hlen] using usage
    · obtain ⟨u, rfl⟩ : ∃ u, args = [u] := List.length_eq_one.mp (not_not.mp hlen)
      show ConnShape env (runSetUser env cmd [u])
      rcases runSetUser_cases env cmd u with
        ⟨-, ⟨e1, -, hr⟩ | ⟨hashed, -, hr⟩⟩
        | ⟨-, ⟨o, hr⟩ | ⟨b, e1, -, -, hr⟩ | ⟨b, hashed, o, -, -, hr⟩ | ⟨b, hashed, -, -, hr⟩⟩
        | ⟨-, -, ⟨e1, -, hr⟩ | ⟨hashed, -, hr⟩⟩ <;>
      rw [hr] <;>
      first
        | exact insert_connShape env _ u _ (by simp [connects]) (by simp [queries])
            (by simp [closes])
        | exact Or.inl (by simp [connects, queries, closes])

/-- The statements issued by lines 161-168: the `INSERT` when the connection
succeeds, nothing otherwise. -/
theorem insert_queries (env : Env) (before : List Event) (u : GoString) (hashed : Bytes) :
    queries (runSetUser.insert env before u hashed).trace
      = queries before ++
        match env.makeSQLClient with
        | .ok _ => [⟨"INSERT INTO system.users VALUES ($1, $2)", [.string u, .bytes hashed]⟩]
        | .error _ => [] := by
  cases hc : env.makeSQLClient <;>
    simp [runSetUser.insert, makeQuery, hc, queries, List.filterMap_append]

/-- Every statement issued by a handler carries the text written in it,
whatever the arguments and the environment. -/
theorem run_statement (h : Handler) (env : Env) (cmd : Command) (args : List GoString) :
    ∀ q ∈ queries (h.run env cmd args).trace, q.query = h.statement := by
  cases h with
  | get =>
    by_cases hlen : args.length ≠ 1
    · simp [Handler.run, runGetUser, hlen, queries]
    · cases hc : env.makeSQLClient <;>
        simp [Handler.run, runGetUser, hlen, hc, queries, makeQuery, Handler.statement]
  | ls =>
    by_cases hlen : args.length > 0
    · simp [Handler.run, runLsUsers, hlen, queries]
    · cases hc : env.makeSQLClient <;>
        simp [Handler.run, runLsUsers, hlen, hc, queries, makeQuery, Handler.statement]
  | rm =>
    by_cases hlen : args.length ≠ 1
    · simp [Handler.run, runRmUser, hlen, queries]
    · cases hc : env.makeSQLClient <;>
        simp [Handler.run, runRmUser, hlen, hc, queries, makeQuery, Handler.statement]
  | set =>
    by_cases hlen : args.length ≠ 1
    · simp [Handler.run, runSetUser, hlen, queries]
    · obtain ⟨u, rfl⟩ : ∃ u, args = [u] := List.length_eq_one.mp (not_not.mp hlen)
      show ∀ q ∈ queries (runSetUser env cmd [u]).trace, q.query = Handler.set.statement
      rcases runSetUser_cases env cmd u with
        ⟨-, ⟨e1, -, hr⟩ | ⟨hashed, -, hr⟩⟩
        | ⟨-, ⟨o, hr⟩ | ⟨b, e1, -, -, hr⟩ | ⟨b, hashed, o, -, -, hr⟩ | ⟨b, hashed, -, -, hr⟩⟩
        | ⟨-, -, ⟨e1, -, hr⟩ | ⟨hashed, -, hr⟩⟩ <;>
      rw [hr] <;> (try rw [insert_queries]) <;>
      cases hc : env.makeSQLClient <;> simp [queries, Handler.statement]

/-- Calls counted in a trace made of two parts. -/
theorem connects_append (a b : List Event) : connects (a ++ b) = connects a + connects b := by
  simp [connects, List.filter_append]

/-- Closed connections of a trace made of two parts. -/
theorem closes_append (a b : List Event) : closes (a ++ b) = closes a ++ closes b := by
  simp [closes, List.filterMap_append]

/-- What `runSetUser` does when the flag is the sentinel, the scanner delivers a
non-empty first token `L` whose hashing succeeds, and then a second token. -/
theorem runSetUser_two_tokens (env : Env) (cmd : Command) (u : GoString)
    (L M : Bytes) (rest : List Bytes) (hashed : Bytes)
    (hp : env.password = lit "-") (hl : env.stdin.lines = L :: M :: rest) (hL : L ≠ [])
    (hh : env.HashPassword L = .ok hashed) :
    runSetUser env cmd [u]
        = ⟨[.Scan, .HashPassword L, .Scan],
            .returned (errors.New "multiline passwords are not permitted")⟩
      ∧ connects (runSetUser env cmd [u]).trace = 0
      ∧ queries (runSetUser env cmd [u]).trace = [] := by
  have hpos : 0 < L.length := List.length_pos.mpr hL
  have key : runSetUser env cmd [u]
      = ⟨[.Scan, .HashPassword L, .Scan],
          .returned (errors.New "multiline passwords are not permitted")⟩ := by
    simp [runSetUser, hp, lit_dash, lit_empty, NewScanner, Scanner.Scan, Scanner.Bytes, hl,
      hpos, hh]
  rw [key]
  simp [connects, queries]

/-- What `runSetUser` does when the flag is the sentinel, the scanner delivers
the single non-empty token `L` and then a clean end of input, the hasher
succeeds on `L` and the backend connects. -/
theorem runSetUser_one_token (env : Env) (cmd : Command) (u : GoString)
    (L hashed : Bytes) (conn : SqlConn)
    (hp : env.password = lit "-") (hl : env.stdin.lines = [L]) (he : env.stdin.err = none)
    (hL : L ≠ []) (hh : env.HashPassword L = .ok hashed) (hc : env.makeSQLClient = .ok conn) :
    runSetUser env cmd [u]
        = ⟨[.Scan, .HashPassword L, .Scan, .makeSQLClient,
            .runQueryAndFormatResults conn
              ⟨"INSERT INTO system.users VALUES ($1, $2)", [.string u, .bytes hashed]⟩
              env.prettyFmt,
            .Close conn],
           .returned (env.runQueryAndFormatResults conn
              ⟨"INSERT INTO system.users VALUES ($1, $2)", [.string u, .bytes hashed]⟩
              env.prettyFmt)⟩
      ∧ hashCalls (runSetUser env cmd [u]).trace = [L]
      ∧ queries (runSetUser env cmd [u]).trace
        = [⟨"INSERT INTO system.users VALUES ($1, $2)", [.string u, .bytes hashed]⟩] := by
  have hpos : 0 < L.length := List.length_pos.mpr hL
  have key : runSetUser env cmd [u]
        = ⟨[.Scan, .HashPassword L, .Scan, .makeSQLClient,
            .runQueryAndFormatResults conn
              ⟨"INSERT INTO system.users VALUES ($1, $2)", [.string u, .bytes hashed]⟩
              env.prettyFmt,
            .Close conn],
           .returned (env.runQueryAndFormatResults conn
              ⟨"INSERT INTO system.users VALUES ($1, $2)", [.string u, .bytes hashed]⟩
              env.prettyFmt)⟩ := by
    simp [runSetUser, runSetUser.insert, makeQuery, hp, lit_dash, lit_empty, NewScanner,
      Scanner.Scan, Scanner.Bytes, Scanner.Err, hl, he, hpos, hh, hc]
  rw [key]
  simp [hashCalls, queries]

/-! ## Claims -/

/-- C1: for every argument list whose length differs from the expected one
(one for `get`, `rm` and `set`, zero for `ls`), the handler only calls
`usageAndError` and returns its result: `makeSQLClient` is not called, and
neither the prompt, nor standard input, nor the hasher is used. -/
theorem arity_mismatch_is_usage_error (h : Handler) (env : Env) (cmd : Command)
    (args : List GoString) (hlen : args.length ≠ h.arity) :
    h.run env cmd args = ⟨[.usageAndError cmd], .returned (env.usageAndError cmd)⟩
      ∧ connects (h.run env cmd args).trace = 0
      ∧ prompts (h.run env cmd args).trace = 0
      ∧ scans (h.run env cmd args).trace = 0
      ∧ hashCalls (h.run env cmd args).trace = []
      ∧ queries (h.run env cmd args).trace = [] := by
  have key : h.run env cmd args
      = ⟨[.usageAndError cmd], .returned (env.usageAndError cmd)⟩ := by
    cases h
    · simp only [Handler.arity] at hlen
      simp [Handler.run, runGetUser, hlen]
    · simp only [Handler.arity] at hlen
      have hpos : args.length > 0 := Nat.pos_of_ne_zero hlen
      simp [Handler.run, runLsUsers, hpos]
    · simp only [Handler.arity] at hlen
      simp [Handler.run, runRmUser, hlen]
    · simp only [Handler.arity] at hlen
      simp [Handler.run, runSetUser, hlen]
  rw [key]
  simp [connects, prompts, scans, hashCalls, queries]

/-- Witness of C1: each command with a wrong number of arguments. -/
theorem arity_mismatch_is_usage_error_witness :
    (Handler.get.run sampleEnv getUserCmd []
        = ⟨[.usageAndError getUserCmd], .returned (errors.New "invalid arguments")⟩)
      ∧ (Handler.ls.run sampleEnv lsUsersCmd [lit "alice"]
        = ⟨[.usageAndError lsUsersCmd], .returned (errors.New "invalid arguments")⟩)
      ∧ (Handler.rm.run sampleEnv rmUserCmd [lit "alice", lit "bob"]
        = ⟨[.usageAndError rmUserCmd], .returned (errors.New "invalid arguments")⟩)
      ∧ (Handler.set.run sampleEnv setUserCmd []
        = ⟨[.usageAndError setUserCmd], .returned (errors.New "invalid arguments")⟩) :=
  ⟨(arity_mismatch_is_usage_error .get sampleEnv getUserCmd [] (by decide)).1,
   (arity_mismatch_is_usage_error .ls sampleEnv lsUsersCmd [lit "alice"] (by decide)).1,
   (arity_mismatch_is_usage_error .rm sampleEnv rmUserCmd [lit "alice", lit "bob"]
      (by decide)).1,
   (arity_mismatch_is_usage_error .set sampleEnv setUserCmd [] (by decide)).1⟩

/-- C2 (the code at the failing inputs): with the flag set to the sentinel and a
piped input that ends cleanly before any content (no line at all, or an empty
first line), `runSetUser` does not return an error: it panics with the
string "empty passwords are not permitted", after one `Scan` and without
calling `makeSQLClient`. -/
theorem runSetUser_empty_piped_input_panics (env : Env) (cmd : Command) (u : GoString)
    (hp : env.password = lit "-")
    (hempty : (env.stdin.lines = [] ∧ env.stdin.err = none) ∨ env.stdin.lines.head? = some []) :
    runSetUser env cmd [u]
        = ⟨[.Scan], .panicked (.string "empty passwords are not permitted")⟩
      ∧ (∀ err, (runSetUser env cmd [u]).outcome ≠ .returned err)
      ∧ connects (runSetUser env cmd [u]).trace = 0 := by
  have key : runSetUser env cmd [u]
      = ⟨[.Scan], .panicked (.string "empty passwords are not permitted")⟩ := by
    rcases hempty with ⟨hl, he⟩ | hl
    · exact runSetUser_piped_absent env cmd u hp hl he
    · cases hls : env.stdin.lines with
      | nil => simp [hls] at hl
      | cons t ts =>
        simp only [hls, List.head?_cons, Option.some.injEq] at hl
        subst hl
        exact runSetUser_piped_blank env cmd u ts hp hls
  rw [key]
  simp [connects]

/-- Witness of C2: `set alice` with the flag `-` and the piped inputs `""`
and `"\n"`. -/
theorem runSetUser_empty_piped_input_panics_witness :
    runSetUser { sampleEnv with password := lit "-", stdin := Stdin.ofBytes (lit "") }
        setUserCmd [lit "alice"]
        = ⟨[.Scan], .panicked (.string "empty passwords are not permitted")⟩
      ∧ runSetUser { sampleEnv with password := lit "-", stdin := Stdin.ofBytes (lit "\n") }
        setUserCmd [lit "alice"]
        = ⟨[.Scan], .panicked (.string "empty passwords are not permitted")⟩ :=
  ⟨(runSetUser_empty_piped_input_panics
      { sampleEnv with password := lit "-", stdin := Stdin.ofBytes (lit "") }
      setUserCmd (lit "alice") rfl (Or.inl ⟨rfl, rfl⟩)).1,
   (runSetUser_empty_piped_input_panics
      { sampleEnv with password := lit "-", stdin := Stdin.ofBytes (lit "\n") }
      setUserCmd (lit "alice") rfl (Or.inr (by decide))).1⟩

/-- C3 (the claim fails on long lines): with the flag `-`, a hasher that
always succeeds and a piped input of two non-empty lines, `runSetUser` does not
return the multiline error when a line fills the buffer of the scanner.  With
a first line of 65536 bytes the first `Scan` fails and `bufio.ErrTooLong` is
returned, nothing being hashed; with the first line `one` and a second line of
65536 bytes the second `Scan` fails and `bufio.ErrTooLong` is returned. -/
theorem runSetUser_multiline_long_line_not_rejected :
    (longLine 97).length = 65536 ∧ (10 : UInt8) ∉ longLine 97
      ∧ (pipedEnv (longLine 97 ++ 10 :: lit "two\n")).HashPassword (longLine 97)
        = .ok (longLine 97).reverse
      ∧ runSetUser (pipedEnv (longLine 97 ++ 10 :: lit "two\n")) setUserCmd [lit "alice"]
        = ⟨[.Scan], .returned (some ErrTooLong)⟩
      ∧ runSetUser (pipedEnv (lit "one" ++ 10 :: longLine 98)) setUserCmd [lit "alice"]
        = ⟨[.Scan, .HashPassword (lit "one"), .Scan], .returned (some ErrTooLong)⟩
      ∧ (Outcome.returned (some ErrTooLong)
        ≠ .returned (errors.New "multiline passwords are not permitted")) := by
  have hnl : ∀ c : UInt8, c ≠ 10 → (10 : UInt8) ∉ longLine c := fun c hc h =>
    hc (List.eq_of_mem_replicate h).symm
  have hlen : ∀ c : UInt8, (longLine c).length = MaxScanTokenSize := fun c => by
    simp [longLine]
  have hzero : ([] : Bytes).length < MaxScanTokenSize := by decide
  have h1 : Stdin.ofBytes (longLine 97 ++ 10 :: lit "two\n") = ⟨[], some ErrTooLong⟩ :=
    scanLines_tooLong none (longLine 97) (hnl 97 (by decide)) [] _ hzero
      (by rw [hlen]; simp)
  have h2 : Stdin.ofBytes (lit "one" ++ 10 :: longLine 98)
      = ⟨[lit "one"], some ErrTooLong⟩ := by
    have hrest : scanLines none [] (longLine 98) = ⟨[], some ErrTooLong⟩ := by
      have := scanLines_tooLong none (longLine 98) (hnl 98 (by decide)) [] [] hzero
        (by rw [hlen]; simp)
      rwa [List.append_nil] at this
    rw [Stdin.ofBytes, scanLines_line none (lit "one") (by decide) [] (longLine 98)
      (by decide), hrest]
    have hcr : dropCR ([].reverse ++ lit "one") = lit "one" := by decide
    rw [hcr]
  refine ⟨hlen 97, hnl 97 (by decide), rfl, ?_, ?_, by decide⟩
  · exact runSetUser_piped_scan_error _ setUserCmd (lit "alice") ErrTooLong rfl
      (by show (Stdin.ofBytes _).lines = []; rw [h1])
      (by show (Stdin.ofBytes _).err = some ErrTooLong; rw [h1])
  · exact runSetUser_piped_second_scan_error _ setUserCmd (lit "alice") (lit "one")
      (lit "eno") ErrTooLong rfl
      (by show (Stdin.ofBytes _).lines = [lit "one"]; rw [h2])
      (by show (Stdin.ofBytes _).err = some ErrTooLong; rw [h2])
      (by decide) rfl

/-- C3 (amended): with the flag set to the sentinel and a piped input, read
without error, that starts with a line `L` ended by a newline and goes on with
more bytes `more`, where `L` and the next line are both shorter than
`MaxScanTokenSize` (65536) bytes, `L` without one trailing carriage return is
not empty and its hashing succeeds, `runSetUser` hashes that first line, scans
once more and returns the error "multiline passwords are not permitted";
`makeSQLClient` is not called and no statement is issued. -/
theorem runSetUser_multiline_rejected (env : Env) (cmd : Command) (u : GoString)
    (L more hashed : Bytes)
    (hp : env.password = lit "-")
    (hin : env.stdin = Stdin.ofBytes (L ++ 10 :: more))
    (hnl : (10 : UInt8) ∉ L) (hfit : L.length < MaxScanTokenSize) (hL : dropCR L ≠ [])
    (hmore : more ≠ [])
    (hfit2 : (more.takeWhile (fun c => c ≠ 10)).length < MaxScanTokenSize)
    (hh : env.HashPassword (dropCR L) = .ok hashed) :
    runSetUser env cmd [u]
        = ⟨[.Scan, .HashPassword (dropCR L), .Scan],
            .returned (errors.New "multiline passwords are not permitted")⟩
      ∧ connects (runSetUser env cmd [u]).trace = 0
      ∧ queries (runSetUser env cmd [u]).trace = [] := by
  obtain ⟨t, ts, hts⟩ := scanLines_head none more [] (by simpa using hfit2) (Or.inr hmore)
  have hl : env.stdin.lines = dropCR L :: t :: ts := by
    rw [hin, Stdin.ofBytes, scanLines_line none L hnl [] more (by simpa using hfit), hts]
    simp
  exact runSetUser_two_tokens env cmd u (dropCR L) t ts hashed hp hl hL hh

/-- Witness of C3: `set alice` with the flag `-` and the piped inputs
`"one\ntwo\n"` and `"one\r\ntwo\r\n"`. -/
theorem runSetUser_multiline_rejected_witness :
    runSetUser (pipedEnv (lit "one" ++ 10 :: lit "two\n")) setUserCmd [lit "alice"]
        = ⟨[.Scan, .HashPassword (lit "one"), .Scan],
            .returned (errors.New "multiline passwords are not permitted")⟩
      ∧ runSetUser (pipedEnv (lit "one\r" ++ 10 :: lit "two\r\n")) setUserCmd [lit "alice"]
        = ⟨[.Scan, .HashPassword (lit "one"), .Scan],
            .returned (errors.New "multiline passwords are not permitted")⟩ :=
  ⟨(runSetUser_multiline_rejected (pipedEnv (lit "one" ++ 10 :: lit "two\n"))
      setUserCmd (lit "alice") (lit "one") (lit "two\n") (lit "eno") rfl (by rfl) (by decide)
      (by decide) (by decide) (by decide) (by decide) rfl).1,
   (runSetUser_multiline_rejected (pipedEnv (lit "one\r" ++ 10 :: lit "two\r\n"))
      setUserCmd (lit "alice") (lit "one\r") (lit "two\r\n") (lit "eno") rfl (by rfl)
      (by decide) (by decide) (by decide) (by decide) (by decide) rfl).1⟩

/-- C4 (the claim fails on a long line): with the flag `-`, a hasher that
always succeeds and a backend that connects, a piped input made of one line of
65536 bytes, with or without the closing newline, is not hashed and not
inserted: the first `Scan` fails and `runSetUser` returns
`bufio.ErrTooLong`. -/
theorem runSetUser_single_long_line_not_inserted :
    (longLine 97).length = 65536 ∧ longLine 97 ≠ [] ∧ (10 : UInt8) ∉ longLine 97
      ∧ (pipedEnv (longLine 97)).HashPassword (longLine 97) = .ok (longLine 97).reverse
      ∧ (pipedEnv (longLine 97)).makeSQLClient = .ok ⟨1⟩
      ∧ runSetUser (pipedEnv (longLine 97)) setUserCmd [lit "alice"]
        = ⟨[.Scan], .returned (some ErrTooLong)⟩
      ∧ runSetUser (pipedEnv (longLine 97 ++ [10])) setUserCmd [lit "alice"]
        = ⟨[.Scan], .returned (some ErrTooLong)⟩
      ∧ hashCalls (runSetUser (pipedEnv (longLine 97)) setUserCmd [lit "alice"]).trace
        ≠ [longLine 97]
      ∧ queries (runSetUser (pipedEnv (longLine 97)) setUserCmd [lit "alice"]).trace = [] := by
  have hnl : (10 : UInt8) ∉ longLine 97 := fun h =>
    absurd (List.eq_of_mem_replicate h) (by decide)
  have hlen : (longLine 97).length = MaxScanTokenSize := by simp [longLine]
  have hzero : ([] : Bytes).length < MaxScanTokenSize := by decide
  have hne : longLine 97 ≠ [] := by
    intro h
    rw [h] at hlen
    exact absurd hlen (by decide)
  have h1 : Stdin.ofBytes (longLine 97) = ⟨[], some ErrTooLong⟩ := by
    have := scanLines_tooLong none (longLine 97) hnl [] [] hzero (by rw [hlen]; simp)
    rwa [List.append_nil] at this
  have h2 : Stdin.ofBytes (longLine 97 ++ [10]) = ⟨[], some ErrTooLong⟩ :=
    scanLines_tooLong none (longLine 97) hnl [] [10] hzero (by rw [hlen]; simp)
  have r1 : runSetUser (pipedEnv (longLine 97)) setUserCmd [lit "alice"]
      = ⟨[.Scan], .returned (some ErrTooLong)⟩ :=
    runSetUser_piped_scan_error _ setUserCmd (lit "alice") ErrTooLong rfl
      (by show (Stdin.ofBytes _).lines = []; rw [h1])
      (by show (Stdin.ofBytes _).err = some ErrTooLong; rw [h1])
  have r2 : runSetUser (pipedEnv (longLine 97 ++ [10])) setUserCmd [lit "alice"]
      = ⟨[.Scan], .returned (some ErrTooLong)⟩ :=
    runSetUser_piped_scan_error _ setUserCmd (lit "alice") ErrTooLong rfl
      (by show (Stdin.ofBytes _).lines = []; rw [h2])
      (by show (Stdin.ofBytes _).err = some ErrTooLong; rw [h2])
  refine ⟨hlen, hne, hnl, rfl, rfl, r1, r2, ?_, ?_⟩
  · rw [r1]
    simp [hashCalls]
  · rw [r1]
    simp [queries]

/-- C4 (amended): with the flag set to the sentinel, a piped input, read without
error, made of exactly one line `raw` shorter than `MaxScanTokenSize` (65536)
bytes, with or without the closing newline, whose content `dropCR raw` (the
line without one trailing carriage return) is not empty, a hasher that
succeeds on that content and a backend that connects, `runSetUser` calls
`HashPassword` exactly once, on `dropCR raw`, and issues exactly one statement,
`INSERT INTO system.users VALUES ($1, $2)` with parameters
`(u, Hash(dropCR raw))`, whose result it returns after closing the connection. -/
theorem runSetUser_single_line_inserts (env : Env) (cmd : Command) (u : GoString)
    (raw hashed : Bytes) (conn : SqlConn)
    (hp : env.password = lit "-")
    (hin : env.stdin = Stdin.ofBytes raw ∨ env.stdin = Stdin.ofBytes (raw ++ [10]))
    (hnl : (10 : UInt8) ∉ raw) (hfit : raw.length < MaxScanTokenSize)
    (hne : dropCR raw ≠ [])
    (hh : env.HashPassword (dropCR raw) = .ok hashed) (hc : env.makeSQLClient = .ok conn) :
    runSetUser env cmd [u]
        = ⟨[.Scan, .HashPassword (dropCR raw), .Scan, .makeSQLClient,
            .runQueryAndFormatResults conn
              ⟨"INSERT INTO system.users VALUES ($1, $2)", [.string u, .bytes hashed]⟩
              env.prettyFmt,
            .Close conn],
           .returned (env.runQueryAndFormatResults conn
              ⟨"INSERT INTO system.users VALUES ($1, $2)", [.string u, .bytes hashed]⟩
              env.prettyFmt)⟩
      ∧ hashCalls (runSetUser env cmd [u]).trace = [dropCR raw]
      ∧ queries (runSetUser env cmd [u]).trace
        = [⟨"INSERT INTO system.users VALUES ($1, $2)", [.string u, .bytes hashed]⟩] := by
  have hst : env.stdin = ⟨[dropCR raw], none⟩ := by
    rcases hin with h | h
    · rw [h, (ofBytes_single_line raw hnl hfit hne).1]
    · rw [h, (ofBytes_single_line raw hnl hfit hne).2]
  exact runSetUser_one_token env cmd u (dropCR raw) hashed conn hp (by rw [hst])
    (by rw [hst]) hne hh hc

/-- Witness of C4: `set alice` with the flag `-` and the piped inputs
`"secret\n"`, `"secret"` and `"secret\r\n"`. -/
theorem runSetUser_single_line_inserts_witness :
    hashCalls (runSetUser (pipedEnv (lit "secret" ++ [10])) setUserCmd [lit "alice"]).trace
        = [lit "secret"]
      ∧ queries (runSetUser (pipedEnv (lit "secret" ++ [10])) setUserCmd [lit "alice"]).trace
        = [⟨"INSERT INTO system.users VALUES ($1, $2)",
            [.string (lit "alice"), .bytes (lit "terces")]⟩]
      ∧ queries (runSetUser (pipedEnv (lit "secret")) setUserCmd [lit "alice"]).trace
        = [⟨"INSERT INTO system.users VALUES ($1, $2)",
            [.string (lit "alice"), .bytes (lit "terces")]⟩]
      ∧ hashCalls (runSetUser (pipedEnv (lit "secret\r" ++ [10])) setUserCmd
          [lit "alice"]).trace = [lit "secret"] :=
  ⟨(runSetUser_single_line_inserts (pipedEnv (lit "secret" ++ [10])) setUserCmd
      (lit "alice") (lit "secret") (lit "terces") ⟨1⟩ rfl (Or.inr (by rfl)) (by decide)
      (by decide) (by decide) rfl rfl).2.1,
   (runSetUser_single_line_inserts (pipedEnv (lit "secret" ++ [10])) setUserCmd
      (lit "alice") (lit "secret") (lit "terces") ⟨1⟩ rfl (Or.inr (by rfl)) (by decide)
      (by decide) (by decide) rfl rfl).2.2,
   (runSetUser_single_line_inserts (pipedEnv (lit "secret")) setUserCmd
      (lit "alice") (lit "secret") (lit "terces") ⟨1⟩ rfl (Or.inl (by rfl)) (by decide)
      (by decide) (by decide) rfl rfl).2.2,
   (runSetUser_single_line_inserts (pipedEnv (lit "secret\r" ++ [10])) setUserCmd
      (lit "alice") (lit "secret\r") (lit "terces") ⟨1⟩ rfl (Or.inr (by rfl)) (by decide)
      (by decide) (by decide) rfl rfl).2.1⟩

/-- C5: with a flag value `V` that is neither empty nor the sentinel,
`runSetUser` applies no check to `V`: whatever its bytes, it calls
`HashPassword` exactly once, on `V` itself, without prompting or reading
standard input; when the hasher and the connection succeed it issues
`INSERT INTO system.users VALUES ($1, $2)` with parameters `(u, Hash(V))` and
returns the result of that statement. -/
theorem runSetUser_literal_unvalidated (env : Env) (cmd : Command) (u : GoString)
    (hne : env.password ≠ lit "") (hnd : env.password ≠ lit "-") :
    hashCalls (runSetUser env cmd [u]).trace = [env.password]
      ∧ prompts (runSetUser env cmd [u]).trace = 0
      ∧ scans (runSetUser env cmd [u]).trace = 0
      ∧ (∀ hashed conn, env.HashPassword env.password = .ok hashed →
          env.makeSQLClient = .ok conn →
          runSetUser env cmd [u]
            = ⟨[.HashPassword env.password, .makeSQLClient,
                .runQueryAndFormatResults conn
                  ⟨"INSERT INTO system.users VALUES ($1, $2)", [.string u, .bytes hashed]⟩
                  env.prettyFmt,
                .Close conn],
               .returned (env.runQueryAndFormatResults conn
                  ⟨"INSERT INTO system.users VALUES ($1, $2)", [.string u, .bytes hashed]⟩
                  env.prettyFmt)⟩) := by
  have key : runSetUser env cmd [u]
      = match env.HashPassword env.password with
        | .error err => ⟨[.HashPassword env.password], .returned (some err)⟩
        | .ok hashed => runSetUser.insert env [.HashPassword env.password] u hashed := by
    simp [runSetUser, hne, hnd]
  rw [key]
  cases hh : env.HashPassword env.password with
  | error err => simp [hashCalls, prompts, scans]
  | ok hashed =>
    cases hc : env.makeSQLClient with
    | error err => simp [runSetUser.insert, hc, hashCalls, prompts, scans]
    | ok conn => simp [runSetUser.insert, makeQuery, hc, hashCalls, prompts, scans]

/-- Witness of C5: `set alice` with a flag value made of a blank, a newline,
a tab and the control byte 1. -/
theorem runSetUser_literal_unvalidated_witness :
    hashCalls (runSetUser { sampleEnv with password := [32, 10, 9, 1] }
        setUserCmd [lit "alice"]).trace = [[32, 10, 9, 1]]
      ∧ runSetUser { sampleEnv with password := [32, 10, 9, 1] } setUserCmd [lit "alice"]
        = ⟨[.HashPassword [32, 10, 9, 1], .makeSQLClient,
            .runQueryAndFormatResults ⟨1⟩
              ⟨"INSERT INTO system.users VALUES ($1, $2)",
                [.string (lit "alice"), .bytes [1, 9, 10, 32]]⟩ true,
            .Close ⟨1⟩],
           .returned none⟩ :=
  ⟨(runSetUser_literal_unvalidated { sampleEnv with password := [32, 10, 9, 1] }
      setUserCmd (lit "alice") (by decide) (by decide)).1,
   (runSetUser_literal_unvalidated { sampleEnv with password := [32, 10, 9, 1] }
      setUserCmd (lit "alice") (by decide) (by decide)).2.2.2 [1, 9, 10, 32] ⟨1⟩ rfl rfl⟩

/-- C6: on one argument `runSetUser` uses exactly one password source, chosen
by the flag alone.  The prompt is called if and only if the flag is unset, and
then exactly once, with no read of standard input and no direct call of the
hasher; standard input is scanned if and only if the flag is the sentinel, the
prompt is then not called and the hasher only sees the first line; for any other
value the hasher is called once on the flag value itself, with no prompt and no
scan.  The run never depends on a source that is not selected: replacing the
content of standard input (flag unset or literal) or the answer of the prompt
(flag sentinel or literal) leaves the run unchanged. -/
theorem runSetUser_one_source (env : Env) (cmd : Command) (u : GoString) :
    (0 < prompts (runSetUser env cmd [u]).trace ↔ env.password = lit "")
      ∧ (0 < scans (runSetUser env cmd [u]).trace ↔ env.password = lit "-")
      ∧ (env.password = lit "" →
          prompts (runSetUser env cmd [u]).trace = 1
            ∧ scans (runSetUser env cmd [u]).trace = 0
            ∧ hashCalls (runSetUser env cmd [u]).trace = []
            ∧ ∀ stdin, runSetUser { env with stdin := stdin } cmd [u] = runSetUser env cmd [u])
      ∧ (env.password = lit "-" →
          prompts (runSetUser env cmd [u]).trace = 0
            ∧ (∀ b ∈ hashCalls (runSetUser env cmd [u]).trace, env.stdin.lines.head? = some b)
            ∧ ∀ p, runSetUser { env with PromptForPasswordAndHash := p } cmd [u]
                = runSetUser env cmd [u])
      ∧ (env.password ≠ lit "" → env.password ≠ lit "-" →
          prompts (runSetUser env cmd [u]).trace = 0
            ∧ scans (runSetUser env cmd [u]).trace = 0
            ∧ hashCalls (runSetUser env cmd [u]).trace = [env.password]
            ∧ ∀ stdin p,
                runSetUser { env with stdin := stdin, PromptForPasswordAndHash := p } cmd [u]
                  = runSetUser env cmd [u]) := by
  have hdash : lit "-" ≠ lit "" := by decide
  have frame1 : env.password = lit "" →
      ∀ stdin, runSetUser { env with stdin := stdin } cmd [u] = runSetUser env cmd [u] := by
    intro h stdin
    simp [runSetUser, runSetUser.insert, h]
  have frame2 : env.password = lit "-" →
      ∀ p, runSetUser { env with PromptForPasswordAndHash := p } cmd [u]
        = runSetUser env cmd [u] := by
    intro h p
    simp [runSetUser, runSetUser.insert, h, hdash]
  have frame3 : env.password ≠ lit "" → env.password ≠ lit "-" →
      ∀ stdin p, runSetUser { env with stdin := stdin, PromptForPasswordAndHash := p } cmd [u]
        = runSetUser env cmd [u] := by
    intro h1 h2 stdin p
    simp [runSetUser, runSetUser.insert, h1, h2]
  have hP : prompts (runSetUser env cmd [u]).trace
      = if env.password = lit "" then 1 else 0 := by
    rcases runSetUser_cases env cmd u with
      ⟨h1, ⟨e, -, hr⟩ | ⟨hashed, -, hr⟩⟩
      | ⟨h2, ⟨o, hr⟩ | ⟨b, e, hb, -, hr⟩ | ⟨b, hashed, o, hb, -, hr⟩ | ⟨b, hashed, hb, -, hr⟩⟩
      | ⟨h1, h2, ⟨e, -, hr⟩ | ⟨hashed, -, hr⟩⟩ <;>
    rw [hr] <;> (try rw [(insert_sources env _ u _).1]) <;> simp_all [prompts]
  have hS : 0 < scans (runSetUser env cmd [u]).trace ↔ env.password = lit "-" := by
    rcases runSetUser_cases env cmd u with
      ⟨h1, ⟨e, -, hr⟩ | ⟨hashed, -, hr⟩⟩
      | ⟨h2, ⟨o, hr⟩ | ⟨b, e, hb, -, hr⟩ | ⟨b, hashed, o, hb, -, hr⟩ | ⟨b, hashed, hb, -, hr⟩⟩
      | ⟨h1, h2, ⟨e, -, hr⟩ | ⟨hashed, -, hr⟩⟩ <;>
    rw [hr] <;> (try rw [(insert_sources env _ u _).2.1]) <;>
    simp_all [scans, hdash.symm]
  have hH1 : env.password = lit "" → hashCalls (runSetUser env cmd [u]).trace = [] := by
    intro h
    rcases runSetUser_cases env cmd u with
      ⟨h1, ⟨e, -, hr⟩ | ⟨hashed, -, hr⟩⟩ | ⟨h2, -⟩ | ⟨h1, -⟩
    · rw [hr]; simp [hashCalls]
    · rw [hr, (insert_sources env _ u _).2.2]; simp [hashCalls]
    · exact absurd (h2.symm.trans h) hdash
    · exact absurd h h1
  have hH2 : env.password = lit "-" →
      ∀ b ∈ hashCalls (runSetUser env cmd [u]).trace, env.stdin.lines.head? = some b := by
    intro h
    rcases runSetUser_cases env cmd u with
      ⟨h1, -⟩
      | ⟨h2, ⟨o, hr⟩ | ⟨b, e, hb, -, hr⟩ | ⟨b, hashed, o, hb, -, hr⟩ | ⟨b, hashed, hb, -, hr⟩⟩
      | ⟨-, h2, -⟩
    · exact absurd (h.symm.trans h1) hdash
    · rw [hr]; simp [hashCalls]
    · rw [hr]; simp [hashCalls, hb]
    · rw [hr]; simp [hashCalls, hb]
    · rw [hr, (insert_sources env _ u _).2.2]; simp [hashCalls, hb]
    · exact absurd h h2
  have hH3 : env.password ≠ lit "" → env.password ≠ lit "-" →
      hashCalls (runSetUser env cmd [u]).trace = [env.password] := by
    intro h1 h2
    rcases runSetUser_cases env cmd u with
      ⟨h, -⟩ | ⟨h, -⟩ | ⟨-, -, ⟨e, -, hr⟩ | ⟨hashed, -, hr⟩⟩
    · exact absurd h h1
    · exact absurd h h2
    · rw [hr]; simp [hashCalls]
    · rw [hr, (insert_sources env _ u _).2.2]; simp [hashCalls]
  refine ⟨?_, hS, ?_, ?_, ?_⟩
  · rw [hP]; split <;> simp_all
  · intro h
    refine ⟨by rw [hP]; simp [h], ?_, hH1 h, frame1 h⟩
    by_contra hne
    exact hdash ((hS.mp (Nat.pos_of_ne_zero hne)).symm.trans h)
  · intro h
    exact ⟨by rw [hP]; simp [h, hdash], hH2 h, frame2 h⟩
  · intro h1 h2
    refine ⟨by rw [hP]; simp [h1], ?_, hH3 h1 h2, frame3 h1 h2⟩
    by_contra hne
    exact h2 (hS.mp (Nat.pos_of_ne_zero hne))

/-- Witness of C6: with the literal flag value `"secret"` the hasher sees the
flag value, and neither the prompt nor standard input is used. -/
theorem runSetUser_one_source_witness :
    prompts (runSetUser { sampleEnv with password := lit "secret" }
        setUserCmd [lit "alice"]).trace = 0
      ∧ scans (runSetUser { sampleEnv with password := lit "secret" }
        setUserCmd [lit "alice"]).trace = 0
      ∧ hashCalls (runSetUser { sampleEnv with password := lit "secret" }
        setUserCmd [lit "alice"]).trace = [lit "secret"] :=
  have h := (runSetUser_one_source { sampleEnv with password := lit "secret" }
    setUserCmd (lit "alice")).2.2.2.2 (by decide) (by decide)
  ⟨h.1, h.2.1, h.2.2.1⟩

/-- C7 (the code at the failing input): when `makeSQLClient` fails with the
error `e`, `runLsUsers` on no argument does not return `e`: it panics with
`e`.  The three other handlers return `e` unchanged, `runSetUser` whenever the
password was obtained and the connection is attempted. -/
theorem runLsUsers_connect_error_panics (env : Env) (cmd : Command) (e : Err)
    (hc : env.makeSQLClient = .error e) :
    runLsUsers env cmd [] = ⟨[.makeSQLClient], .panicked (.error e)⟩
      ∧ (∀ err, (runLsUsers env cmd []).outcome ≠ .returned err)
      ∧ (∀ u, runGetUser env cmd [u] = ⟨[.makeSQLClient], .returned (some e)⟩)
      ∧ (∀ u, runRmUser env cmd [u] = ⟨[.makeSQLClient], .returned (some e)⟩)
      ∧ (∀ u, 0 < connects (runSetUser env cmd [u]).trace →
          (runSetUser env cmd [u]).outcome = .returned (some e)
            ∧ queries (runSetUser env cmd [u]).trace = []) := by
  have hls : runLsUsers env cmd [] = ⟨[.makeSQLClient], .panicked (.error e)⟩ := by
    simp [runLsUsers, hc]
  refine ⟨hls, ?_, ?_, ?_, ?_⟩
  · intro err
    rw [hls]
    simp
  · intro u
    simp [runGetUser, hc]
  · intro u
    simp [runRmUser, hc]
  · intro u
    rcases runSetUser_cases env cmd u with
      ⟨-, ⟨e1, -, hr⟩ | ⟨hashed, -, hr⟩⟩
      | ⟨-, ⟨o, hr⟩ | ⟨b, e1, -, -, hr⟩ | ⟨b, hashed, o, -, -, hr⟩ | ⟨b, hashed, -, -, hr⟩⟩
      | ⟨-, -, ⟨e1, -, hr⟩ | ⟨hashed, -, hr⟩⟩ <;>
    rw [hr] <;> (try rw [insert_connect_error env _ u _ e hc]) <;> simp [connects, queries]

/-- Witness of C7: `ls` with a backend that refuses the connection. -/
theorem runLsUsers_connect_error_panics_witness :
    runLsUsers { sampleEnv with makeSQLClient := .error ⟨"connection refused"⟩ } lsUsersCmd []
      = ⟨[.makeSQLClient], .panicked (.error ⟨"connection refused"⟩)⟩ :=
  (runLsUsers_connect_error_panics
    { sampleEnv with makeSQLClient := .error ⟨"connection refused"⟩ } lsUsersCmd
    ⟨"connection refused"⟩ rfl).1

/-- C8: whichever source reaches the hasher (the prompt with the flag unset, a
non-empty first piped line with the sentinel, the flag value otherwise), when
the hashing step fails with the error `e`, `runSetUser` returns exactly `e`; it
does not call `makeSQLClient`, issues no statement and closes nothing.  On the
piped path this holds whatever follows the first line, and standard input is
scanned only once: the error comes before the multiline check. -/
theorem runSetUser_hash_error_returned (env : Env) (cmd : Command) (u : GoString) (e : Err)
    (hfail : (env.password = lit "" ∧ env.PromptForPasswordAndHash = .error e)
      ∨ (env.password = lit "-" ∧ ∃ L rest, env.stdin.lines = L :: rest ∧ L ≠ []
          ∧ env.HashPassword L = .error e)
      ∨ (env.password ≠ lit "" ∧ env.password ≠ lit "-"
          ∧ env.HashPassword env.password = .error e)) :
    (runSetUser env cmd [u]).outcome = .returned (some e)
      ∧ connects (runSetUser env cmd [u]).trace = 0
      ∧ queries (runSetUser env cmd [u]).trace = []
      ∧ closes (runSetUser env cmd [u]).trace = []
      ∧ scans (runSetUser env cmd [u]).trace ≤ 1 := by
  rcases hfail with ⟨hp, hh⟩ | ⟨hp, L, rest, hl, hL, hh⟩ | ⟨h1, h2, hh⟩
  · have key : runSetUser env cmd [u] = ⟨[.PromptForPasswordAndHash], .returned (some e)⟩ := by
      simp [runSetUser, hp, hh]
    rw [key]
    simp [connects, queries, closes, scans]
  · have hpos : 0 < L.length := List.length_pos.mpr hL
    have key : runSetUser env cmd [u] = ⟨[.Scan, .HashPassword L], .returned (some e)⟩ := by
      simp [runSetUser, hp, lit_dash, lit_empty, NewScanner, Scanner.Scan, Scanner.Bytes, hl,
        hpos, hh]
    rw [key]
    simp [connects, queries, closes, scans]
  · have key : runSetUser env cmd [u]
        = ⟨[.HashPassword env.password], .returned (some e)⟩ := by
      simp [runSetUser, h1, h2, hh]
    rw [key]
    simp [connects, queries, closes, scans]

/-- Witness of C8: a failing prompt, a failing hasher on the piped input
`"one\ntwo\n"`, and a failing hasher on the literal flag value `"secret"`. -/
theorem runSetUser_hash_error_returned_witness :
    (runSetUser { sampleEnv with PromptForPasswordAndHash := .error ⟨"hash failure"⟩ }
        setUserCmd [lit "alice"]).outcome = .returned (some ⟨"hash failure"⟩)
      ∧ (runSetUser (failingHashEnv (lit "-") (lit "one\ntwo\n"))
        setUserCmd [lit "alice"]).outcome = .returned (some ⟨"hash failure"⟩)
      ∧ (runSetUser (failingHashEnv (lit "secret") [])
        setUserCmd [lit "alice"]).outcome = .returned (some ⟨"hash failure"⟩) :=
  ⟨(runSetUser_hash_error_returned
      { sampleEnv with PromptForPasswordAndHash := .error ⟨"hash failure"⟩ }
      setUserCmd (lit "alice") ⟨"hash failure"⟩ (Or.inl ⟨rfl, rfl⟩)).1,
   (runSetUser_hash_error_returned
      (failingHashEnv (lit "-") (lit "one\ntwo\n"))
      setUserCmd (lit "alice") ⟨"hash failure"⟩
      (Or.inr (Or.inl ⟨rfl, lit "one", [lit "two"], by decide, by decide, rfl⟩))).1,
   (runSetUser_hash_error_returned
      (failingHashEnv (lit "secret") [])
      setUserCmd (lit "alice") ⟨"hash failure"⟩
      (Or.inr (Or.inr ⟨by decide, by decide, rfl⟩))).1⟩

/-- C9: for each of the four handlers, every argument list and every
environment: if `makeSQLClient` is called and succeeds with `conn`, the run
ends with one statement followed by `Close conn` as its last event, `Close` is
called exactly once in the whole run, and the handler returns exactly what
`runQueryAndFormatResults` returned for that statement, be it `nil` or an
error; if `makeSQLClient` is not called, or fails, `Close` is never called. -/
theorem connection_closed_exactly_once (h : Handler) (env : Env) (cmd : Command)
    (args : List GoString) :
    (∀ conn, env.makeSQLClient = .ok conn → 0 < connects (h.run env cmd args).trace →
        closes (h.run env cmd args).trace = [conn]
          ∧ ∃ before q,
              h.run env cmd args
                = ⟨before ++ [.makeSQLClient,
                      .runQueryAndFormatResults conn q env.prettyFmt, .Close conn],
                    .returned (env.runQueryAndFormatResults conn q env.prettyFmt)⟩
                ∧ connects before = 0 ∧ queries before = [] ∧ closes before = [])
      ∧ ((connects (h.run env cmd args).trace = 0 ∨ ∃ e, env.makeSQLClient = .error e) →
          closes (h.run env cmd args).trace = []) := by
  rcases run_connShape h env cmd args with
    ⟨h1, -, h3⟩ | ⟨before, e, hc, htr, h1, -, h3⟩ | ⟨before, conn, q, hc, hr, h1, h2, h3⟩
  · refine ⟨?_, fun _ => h3⟩
    intro conn _ hpos
    omega
  · refine ⟨?_, ?_⟩
    · intro conn hok
      rw [hc] at hok
      cases hok
    · intro _
      rw [htr, closes_append, h3]
      simp [closes]
  · have hcl : closes (h.run env cmd args).trace = [conn] := by
      rw [hr]
      show closes (before ++ _) = [conn]
      rw [closes_append, h3]
      simp [closes]
    have hcn : 0 < connects (h.run env cmd args).trace := by
      rw [hr]
      show 0 < connects (before ++ _)
      rw [connects_append]
      simp [connects]
    refine ⟨?_, ?_⟩
    · intro conn1 hok _
      rw [hc] at hok
      cases hok
      exact ⟨hcl, before, q, hr, h1, h2, h3⟩
    · rintro (h0 | ⟨e, he⟩)
      · omega
      · rw [hc] at he
        cases he

/-- Witness of C9: `get alice` whose statement fails still closes the
connection once and returns the error of the statement. -/
theorem connection_closed_exactly_once_witness :
    closes (Handler.get.run
        { sampleEnv with runQueryAndFormatResults := fun _ _ _ => some ⟨"no such table"⟩ }
        getUserCmd [lit "alice"]).trace = [⟨1⟩] :=
  ((connection_closed_exactly_once .get
      { sampleEnv with runQueryAndFormatResults := fun _ _ _ => some ⟨"no such table"⟩ }
      getUserCmd [lit "alice"]).1 ⟨1⟩ rfl (by decide)).1

/-- C10: the statement text of each handler is a constant that depends neither
on the user name nor on anything else, and the user name only occurs as a bound
parameter.  Every statement issued by `get` on `u` is
`SELECT * FROM system.users WHERE username=$1` with parameters `[u]`, by `rm`
it is `DELETE FROM system.users WHERE username=$1` with `[u]`, by `ls` it is
`SELECT username FROM system.users` with no parameter, and by `set` it is
`INSERT INTO system.users VALUES ($1, $2)` with `[u, hashed]`, where `hashed`
is what the selected source produced; with a successful connection `get`, `rm`
and `ls` issue exactly that one statement, and so does `set` as soon as its
source yields a hash `hashed` (the prompt, the single non-empty piped line, or
the flag value): it issues exactly the `INSERT` with `[u, hashed]`.  Two runs of
the same handler, on any arguments, issue statements with the same text. -/
theorem statements_are_parameterized (env : Env) (cmd : Command) (u : GoString) :
    (∀ q ∈ queries (runGetUser env cmd [u]).trace,
        q = ⟨"SELECT * FROM system.users WHERE username=$1", [.string u]⟩)
      ∧ (∀ q ∈ queries (runRmUser env cmd [u]).trace,
        q = ⟨"DELETE FROM system.users WHERE username=$1", [.string u]⟩)
      ∧ (∀ q ∈ queries (runLsUsers env cmd []).trace,
        q = ⟨"SELECT username FROM system.users", []⟩)
      ∧ (∀ q ∈ queries (runSetUser env cmd [u]).trace, ∃ hashed,
        q = ⟨"INSERT INTO system.users VALUES ($1, $2)", [.string u, .bytes hashed]⟩
          ∧ ((env.password = lit "" ∧ env.PromptForPasswordAndHash = .ok hashed)
            ∨ (env.password = lit "-" ∧ ∃ b, env.stdin.lines.head? = some b
                ∧ env.HashPassword b = .ok hashed)
            ∨ (env.password ≠ lit "" ∧ env.password ≠ lit "-"
                ∧ env.HashPassword env.password = .ok hashed)))
      ∧ (∀ conn, env.makeSQLClient = .ok conn →
          queries (runGetUser env cmd [u]).trace
              = [⟨"SELECT * FROM system.users WHERE username=$1", [.string u]⟩]
            ∧ queries (runRmUser env cmd [u]).trace
              = [⟨"DELETE FROM system.users WHERE username=$1", [.string u]⟩]
            ∧ queries (runLsUsers env cmd []).trace
              = [⟨"SELECT username FROM system.users", []⟩])
      ∧ (∀ conn hashed, env.makeSQLClient = .ok conn →
          ((env.password = lit "" ∧ env.PromptForPasswordAndHash = .ok hashed)
            ∨ (env.password = lit "-" ∧ ∃ L, env.stdin.lines = [L] ∧ env.stdin.err = none
                ∧ L ≠ [] ∧ env.HashPassword L = .ok hashed)
            ∨ (env.password ≠ lit "" ∧ env.password ≠ lit "-"
                ∧ env.HashPassword env.password = .ok hashed)) →
          queries (runSetUser env cmd [u]).trace
            = [⟨"INSERT INTO system.users VALUES ($1, $2)", [.string u, .bytes hashed]⟩])
      ∧ (∀ (h : Handler) (env1 env2 : Env) (cmd1 cmd2 : Command) (args1 args2 : List GoString),
          ∀ q1 ∈ queries (h.run env1 cmd1 args1).trace,
          ∀ q2 ∈ queries (h.run env2 cmd2 args2).trace, q1.query = q2.query) := by
  refine ⟨?_, ?_, ?_, ?_, ?_, ?_, ?_⟩
  · cases hc : env.makeSQLClient <;> simp [runGetUser, hc, queries, makeQuery]
  · cases hc : env.makeSQLClient <;> simp [runRmUser, hc, queries, makeQuery]
  · cases hc : env.makeSQLClient <;> simp [runLsUsers, hc, queries, makeQuery]
  · rcases runSetUser_cases env cmd u with
      ⟨h1, ⟨e1, -, hr⟩ | ⟨hashed, hp, hr⟩⟩
      | ⟨h2, ⟨o, hr⟩ | ⟨b, e1, -, -, hr⟩ | ⟨b, hashed, o, -, -, hr⟩ | ⟨b, hashed, hb, hh, hr⟩⟩
      | ⟨h1, h2, ⟨e1, -, hr⟩ | ⟨hashed, hh, hr⟩⟩
    · rw [hr]; simp [queries]
    · rw [hr, insert_queries]
      cases hc : env.makeSQLClient with
      | error e => simp [queries]
      | ok conn =>
        intro q hq
        simp [queries] at hq
        exact ⟨hashed, hq, Or.inl ⟨h1, hp⟩⟩
    · rw [hr]; simp [queries]
    · rw [hr]; simp [queries]
    · rw [hr]; simp [queries]
    · rw [hr, insert_queries]
      cases hc : env.makeSQLClient with
      | error e => simp [queries]
      | ok conn =>
        intro q hq
        simp [queries] at hq
        exact ⟨hashed, hq, Or.inr (Or.inl ⟨h2, b, hb, hh⟩)⟩
    · rw [hr]; simp [queries]
    · rw [hr, insert_queries]
      cases hc : env.makeSQLClient with
      | error e => simp [queries]
      | ok conn =>
        intro q hq
        simp [queries] at hq
        exact ⟨hashed, hq, Or.inr (Or.inr ⟨h1, h2, hh⟩)⟩
  · intro conn hc
    simp [runGetUser, runRmUser, runLsUsers, hc, queries, makeQuery]
  · intro conn hashed hc hsrc
    rcases hsrc with ⟨h1, hp⟩ | ⟨h2, L, hl, he, hL, hh⟩ | ⟨h1, h2, hh⟩
    · have hr : runSetUser env cmd [u]
          = runSetUser.insert env [.PromptForPasswordAndHash] u hashed := by
        simp [runSetUser, h1, hp]
      rw [hr, insert_queries, hc]
      simp [queries]
    · exact (runSetUser_one_token env cmd u L hashed conn h2 hl he hL hh hc).2.2
    · have hr : runSetUser env cmd [u]
          = runSetUser.insert env [.HashPassword env.password] u hashed := by
        simp [runSetUser, h1, h2, hh]
      rw [hr, insert_queries, hc]
      simp [queries]
  · intro h env1 env2 cmd1 cmd2 args1 args2 q1 hq1 q2 hq2
    rw [run_statement h env1 cmd1 args1 q1 hq1, run_statement h env2 cmd2 args2 q2 hq2]

/-- Witness of C10: `get` and `set` on a user name that looks like SQL issue
the constant text of the handler with the name among the parameters. -/
theorem statements_are_parameterized_witness :
    queries (runGetUser sampleEnv getUserCmd [lit "x; DROP TABLE system.users"]).trace
        = [⟨"SELECT * FROM system.users WHERE username=$1",
            [.string (lit "x; DROP TABLE system.users")]⟩]
      ∧ queries (runSetUser { sampleEnv with password := lit "secret" } setUserCmd
          [lit "x; DROP TABLE system.users"]).trace
        = [⟨"INSERT INTO system.users VALUES ($1, $2)",
            [.string (lit "x; DROP TABLE system.users"), .bytes (lit "terces")]⟩]
      ∧ queries (runSetUser sampleEnv setUserCmd [lit "alice"]).trace
        = [⟨"INSERT INTO system.users VALUES ($1, $2)",
            [.string (lit "alice"), .bytes (lit "prompted-hash")]⟩]
      ∧ queries (runSetUser (pipedEnv (lit "secret\n")) setUserCmd [lit "alice"]).trace
        = [⟨"INSERT INTO system.users VALUES ($1, $2)",
            [.string (lit "alice"), .bytes (lit "terces")]⟩] :=
  ⟨((statements_are_parameterized sampleEnv getUserCmd
      (lit "x; DROP TABLE system.users")).2.2.2.2.1 ⟨1⟩ rfl).1,
   (statements_are_parameterized { sampleEnv with password := lit "secret" } setUserCmd
      (lit "x; DROP TABLE system.users")).2.2.2.2.2.1 ⟨1⟩ (lit "terces") rfl
      (Or.inr (Or.inr ⟨by decide, by decide, rfl⟩)),
   (statements_are_parameterized sampleEnv setUserCmd (lit "alice")).2.2.2.2.2.1 ⟨1⟩
      (lit "prompted-hash") rfl (Or.inl ⟨rfl, rfl⟩),
   (statements_are_parameterized (pipedEnv (lit "secret\n")) setUserCmd
      (lit "alice")).2.2.2.2.2.1 ⟨1⟩ (lit "terces") rfl
      (Or.inr (Or.inl ⟨rfl, lit "secret", by decide, rfl, by decide, rfl⟩))⟩

end Cli
